import Mathlib

/-!
Shallow embedding of the TTS backend in src/main.py.

Conventions of the embedding:
  - Python strings are Lean String values; string primitives are modelled
    on the underlying character lists (code points), matching Python
    semantics for len, slicing, lower, strip and startswith on the ASCII
    inputs this service handles.
  - A value that may be None or a non-string is modelled as Option String,
    with none standing for the missing or non-string case that the code
    guards against with isinstance checks.
  - The voice storage dictionary (voice_storage.json, loaded by
    load_voice_storage) is modelled as an association list from user id
    to voice id.
  - The external provider (the fishaudio SDK call client.tts.convert and
    the REST enrollment endpoint) is modelled as an oracle function given
    per call; its outcome is either returned audio, a raised APIError
    with a message, or another raised exception with a message.
  - Effects that the claims quantify over are made observable: each
    endpoint model returns, besides the HTTP result, the number of
    provider calls made, the sleep durations of the retry loop, and the
    parameters sent to the provider.
-/

deriving instance DecidableEq for Except

namespace TTSBackend

/-- Python str.isspace on the ASCII whitespace characters stripped by
str.strip with no argument. -/
def py_isspace (c : Char) : Bool :=
  c = ' ' || c = '\t' || c = '\n' || c = '\r' || c = '\x0b' || c = '\x0c'

/-- Python str.strip with no argument: drop whitespace from both ends. -/
def pyStrip (s : String) : String :=
  String.mk (((s.data.dropWhile py_isspace).reverse.dropWhile py_isspace).reverse)

/-- Python str.lower, on the ASCII range the service uses. -/
def pyLower (s : String) : String :=
  String.mk (s.data.map Char.toLower)

/-- Python str.startswith. -/
def py_startswith (s pre : String) : Bool :=
  pre.data.isPrefixOf s.data

/-- Python len on a string: number of code points. -/
def py_len (s : String) : Nat :=
  s.data.length

/-- Python slicing s[n:]: drop the first n code points. -/
def py_drop (s : String) (n : Nat) : String :=
  String.mk (s.data.drop n)

/-- Membership test of the Python `in` operator on strings: the needle
occurs as a contiguous substring of the haystack. -/
def list_contains_sub (needle : List Char) : List Char → Bool
  | [] => needle.isEmpty
  | c :: rest => needle.isPrefixOf (c :: rest) || list_contains_sub needle rest

/-- Python `needle in hay` on strings. -/
def strContains (hay needle : String) : Bool :=
  list_contains_sub needle.data hay.data

/-- Python truthiness of an optional string: None and the empty string
are falsy, every other string is truthy. -/
def py_truthy : Option String → Bool
  | none => false
  | some s => !(s = "")

/-- The EMOTION_VOICE_PARAMS table of src/main.py lines 26-42, flattened
to the speed field that each entry carries. -/
def EMOTION_VOICE_PARAMS : List (String × ℚ) :=
  [("happy", 1.1), ("sad", 0.9), ("neutral", 1.0), ("surprised", 1.15), ("angry", 1.05)]

/-- Python dict.get with a default, over the association-list model. -/
def dict_get (table : List (String × ℚ)) (k : String) (d : ℚ) : ℚ :=
  match table with
  | [] => d
  | (k2, v) :: rest => if k2 = k then v else dict_get rest k d

/-- Python dict.get over the voice-storage dictionary, returning None
when the key is absent (storage.get(user_id) in get_user_voice_id,
src/main.py line 72). -/
def storage_get (storage : List (String × String)) (k : String) : Option String :=
  match storage with
  | [] => none
  | (k2, v) :: rest => if k2 = k then some v else storage_get rest k

/-- get_user_voice_id of src/main.py lines 69-72, over the loaded
storage dictionary. -/
def get_user_voice_id (storage : List (String × String)) (user_id : String) : Option String :=
  storage_get storage user_id

/-- The valid_emotions list of src/main.py line 547. -/
def valid_emotions : List String :=
  ["happy", "sad", "neutral", "surprised", "angry"]

/-- The emotion coercion of src/main.py lines 534-535: a missing,
non-string or empty emotion value is replaced by the neutral label. -/
def coerce_emotion : Option String → String
  | none => "neutral"
  | some e => if e = "" then "neutral" else e

/-- The case-folded emotion (emotion_lower, src/main.py line 539),
computed before the membership test against valid_emotions. -/
def emotion_lower_of (emotion : Option String) : String :=
  pyLower (coerce_emotion emotion)

/-- The resolved emotion after the validity check of src/main.py
lines 547-550: a case-folded value outside valid_emotions becomes
neutral. -/
def resolve_emotion (emotion : Option String) : String :=
  let el := emotion_lower_of emotion
  if valid_emotions.contains el then el else "neutral"

/-- The speed lookup of src/main.py lines 581 and 594:
EMOTION_VOICE_PARAMS.get(emotion_lower, EMOTION_VOICE_PARAMS[neutral
entry]) followed by .get of the speed field with default 1.0; the
neutral entry carries speed 1.0, so the default collapses to 1.0. -/
def emotion_speed (emotion : Option String) : ℚ :=
  dict_get EMOTION_VOICE_PARAMS (resolve_emotion emotion) 1.0

/-- Result of the request normalization phase of generate_speech
(src/main.py lines 537-556). -/
structure Normalized where
  text : String
  emotion_lower : String
  prompt_text : String
deriving DecidableEq

/-- The normalization of src/main.py lines 537-556, run after text
validation has passed: strip the text, strip an inline emotion tag
written with the case-folded requested emotion, coerce the emotion to
the valid set, and build the prompt text. -/
def normalize_request (text0 : String) (emotion : Option String) : Normalized :=
  let text1 := pyStrip text0
  let el := emotion_lower_of emotion
  let tag := "(" ++ el ++ ")"
  let text2 :=
    if py_startswith (pyLower text1) tag then pyStrip (py_drop text1 (py_len tag))
    else text1
  let el2 := resolve_emotion emotion
  let pt := if el2 = "neutral" then text2 else "(" ++ el2 ++ ") " ++ text2
  ⟨text2, el2, pt⟩

/-- The voice selection of src/main.py lines 570-571 combined with the
reference_id inclusion of lines 600-604: a truthy stored voice wins,
else a truthy process default, else no reference identifier is sent. -/
def resolve_voice_id (storage : List (String × String)) (user_id : String)
    (default_voice_id : Option String) : Option String :=
  let user_voice_id := get_user_voice_id storage user_id
  let voice_id_to_use := if py_truthy user_voice_id then user_voice_id else default_voice_id
  if py_truthy voice_id_to_use then voice_id_to_use else none

/-- The VoiceStatusResponse model of src/main.py lines 131-134. -/
structure VoiceStatusResponse where
  has_voice : Bool
  voice_id : Option String
  status : String
deriving DecidableEq

/-- The /api/voice-status handler get_voice_status of src/main.py
lines 459-475. -/
def get_voice_status (storage : List (String × String)) (user_id : String) :
    VoiceStatusResponse :=
  let voice_id := get_user_voice_id storage user_id
  if py_truthy voice_id then
    ⟨true, voice_id, "Personal Voice Activated"⟩
  else
    ⟨false, none, "Voice Model Not Setup"⟩

/-- Outcome of one call to the external synthesis operation
client.tts.convert: returned audio bytes, a raised APIError carrying a
message, or any other raised exception carrying a message. -/
inductive ConvertResult where
  | ok (audio : String)
  | apiError (msg : String)
  | exn (msg : String)
deriving DecidableEq

/-- The convert_params dictionary of src/main.py lines 592-601, reduced
to the fields the claims observe; model, format, normalize, latency,
temperature and top_p are fixed constants in the code. -/
structure ConvertParams where
  text : String
  speed : ℚ
  reference_id : Option String
deriving DecidableEq

/-- max_retries of src/main.py line 612. -/
def max_retries : Nat := 3

/-- retry_delay of src/main.py line 613. -/
def retry_delay : Nat := 1

/-- The retry loop of src/main.py lines 615-637. The loop body is run
with attempt = 0, 1, ... and fuel = max_retries - attempt; the fuel 0
branch is unreachable because on the last attempt an APIError is
re-raised rather than retried. Returns the loop exit (success, raised
APIError, or raised other exception), the number of provider calls
made, and the list of sleep durations taken between attempts. -/
def tts_loop (call : Nat → ConvertResult) : Nat → Nat → ConvertResult × Nat × List Nat
  | _, 0 => (.exn "loop exhausted", 0, [])
  | attempt, fuel + 1 =>
    match call attempt with
    | .ok a => (.ok a, 1, [])
    | .exn m => (.exn m, 1, [])
    | .apiError m =>
      if attempt < max_retries - 1 then
        let r := tts_loop call (attempt + 1) fuel
        (r.1, r.2.1 + 1, retry_delay * 2 ^ attempt :: r.2.2)
      else (.apiError m, 1, [])

/-- The user-actionable detail string of src/main.py lines 656-659,
with the two implicitly concatenated Python string literals joined. -/
def actionable_detail : String :=
  "Fish Audio API Error: Invalid API key or insufficient balance. Please check your API key and account balance at https://fish.audio"

/-- The user_id extraction of src/main.py line 518: request.user_id or
the literal default, under Python or-truthiness (None and the empty
string both fall back). -/
def py_user_id : Option String → String
  | none => "default"
  | some u => if u = "" then "default" else u

/-- Observable outcome of the /generate_speech handler: the HTTP result
(error status and detail, or the audio body), the number of provider
calls made, the sleep durations of the retry loop, and the parameters
sent to the provider (none when the provider was never called). -/
structure GenOutcome where
  result : Except (Nat × String) String
  providerCalls : Nat
  waits : List Nat
  sent_params : Option ConvertParams
deriving DecidableEq

/-- The /generate_speech handler generate_speech of src/main.py
lines 506-675. Arguments model the request fields (text, emotion,
user_id, with none standing for a missing or non-string value), the
loaded voice storage, the process-wide default_voice_id, whether the
provider client was initialized at startup, and the provider oracle,
called with the convert parameters and the attempt index. -/
def generate_speech (text : Option String) (emotion : Option String)
    (user_id0 : Option String) (storage : List (String × String))
    (default_voice_id : Option String) (client_ok : Bool)
    (provider : ConvertParams → Nat → ConvertResult) : GenOutcome :=
  let user_id := py_user_id user_id0
  match text with
  | none => ⟨.error (400, "Text cannot be empty and must be a string"), 0, [], none⟩
  | some t =>
    if t = "" ∨ pyStrip t = "" then
      ⟨.error (400, "Text cannot be empty and must be a string"), 0, [], none⟩
    else
      let n := normalize_request t emotion
      if client_ok = false then
        ⟨.error (500, "Fish Audio client not initialized. Please set FISH_AUDIO_API_KEY environment variable."), 0, [], none⟩
      else
        let reference_id := resolve_voice_id storage user_id default_voice_id
        let params : ConvertParams := ⟨n.prompt_text, emotion_speed emotion, reference_id⟩
        let r := tts_loop (provider params) 0 max_retries
        match r.1 with
        | .ok audio => ⟨.ok audio, r.2.1, r.2.2, some params⟩
        | .apiError m =>
          let actionable := strContains m "402" || strContains m "Invalid api key" ||
            strContains m "insufficient balance"
          let detail := if actionable then actionable_detail else "Fish Audio API Error: " ++ m
          ⟨.error (if strContains m "402" then 402 else 500, detail), r.2.1, r.2.2, some params⟩
        | .exn m => ⟨.error (500, "Failed to generate speech: " ++ m), r.2.1, r.2.2, some params⟩

/-- Outcome of one provider response in the enrollment flow: HTTP
status, the voice identifier extractable from the response body via the
field names the code probes (none when no recognizable identifier is
present), and the response text. -/
structure EnrollResp where
  status : Nat
  body_id : Option String
  text : String

/-- Observable outcome of the /api/create-voice handler: the HTTP
result and the number of provider calls made. -/
structure EnrollOutcome where
  result : Except (Nat × String) String
  providerCalls : Nat
deriving DecidableEq

/-- The 10MB size ceiling of src/main.py line 163. -/
def MAX_AUDIO_BYTES : Nat := 10 * 1024 * 1024

/-- The cover_field_names list of src/main.py line 321. -/
def cover_field_names : List String :=
  ["cover", "cover_image", "image", "coverImage", "thumbnail", "thumb"]

/-- The cover-image retry loop of src/main.py lines 324-372: one
provider call per field name, stopping at the first 201 response that
yields a voice identifier. Returns the identifier found, if any, and
the number of calls made. -/
def cover_retry (provider : Nat → EnrollResp) (callIdx : Nat) :
    List String → Option String × Nat
  | [] => (none, 0)
  | _ :: rest =>
    let r := provider callIdx
    if r.status = 201 && r.body_id.isSome then (r.body_id, 1)
    else
      let q := cover_retry provider (callIdx + 1) rest
      (q.1, q.2 + 1)

/-- The /api/create-voice handler create_voice of src/main.py
lines 137-456, with the persistence of the created identifier and the
logging omitted. Arguments: whether the provider client was
initialized, the byte length of the uploaded audio, and the provider
oracle indexed by call number. The cover-image creation of lines
196-219 is modelled as always available. -/
def create_voice (client_ok : Bool) (audio_len : Nat)
    (provider : Nat → EnrollResp) : EnrollOutcome :=
  if client_ok = false then
    ⟨.error (500, "Fish Audio client not initialized. Please set FISH_AUDIO_API_KEY environment variable."), 0⟩
  else if audio_len > MAX_AUDIO_BYTES then
    ⟨.error (400, "Audio file too large (max 10MB)"), 0⟩
  else if audio_len < 1000 then
    ⟨.error (400, "Audio file too small"), 0⟩
  else
    let r := provider 0
    if r.status = 201 then
      match r.body_id with
      | some vid => ⟨.ok vid, 1⟩
      | none => ⟨.error (500, "Voice creation succeeded (201) but no voice ID found in response"), 1⟩
    else if r.status = 400 && strContains (pyLower r.text) "cover image" then
      let q := cover_retry provider 1 cover_field_names
      match q.1 with
      | some vid => ⟨.ok vid, q.2 + 1⟩
      | none => ⟨.error (r.status, "Fish Audio API Error: all cover image field names failed"), q.2 + 1⟩
    else
      ⟨.error (r.status, "Fish Audio API Error"), 1⟩

/-! ## Helper lemmas -/

lemma pyStrip_empty : pyStrip "" = "" := rfl

lemma text_valid_of_strip_ne {t : String} (h : pyStrip t ≠ "") :
    ¬ (t = "" ∨ pyStrip t = "") := by
  rintro (h1 | h1)
  · exact h (by rw [h1]; rfl)
  · exact h h1

/-- On a valid request with an initialized client, generate_speech
always invokes the provider and sends it the prompt built by the
normalizer, the speed of the emotion table and the resolved voice. -/
lemma generate_speech_sent_params (t : String) (e uid0 : Option String)
    (storage : List (String × String)) (dflt : Option String)
    (provider : ConvertParams → Nat → ConvertResult) (hv : pyStrip t ≠ "") :
    (generate_speech (some t) e uid0 storage dflt true provider).sent_params =
      some ⟨(normalize_request t e).prompt_text, emotion_speed e,
            resolve_voice_id storage (py_user_id uid0) dflt⟩ := by
  simp only [generate_speech, if_neg (text_valid_of_strip_ne hv)]
  cases h : (tts_loop (provider ⟨(normalize_request t e).prompt_text, emotion_speed e,
      resolve_voice_id storage (py_user_id uid0) dflt⟩) 0 max_retries).1 <;>
    simp [h]

/-! ## Claim theorems -/

/-- C4: for every normalized request, the constructed prompt_text equals
the text unchanged when the resolved emotion is neutral, and otherwise
equals the lowercase emotion in parentheses, a space, then the text; in
particular with text Hello and emotion happy the prompt is the tagged
string, and with emotion neutral it is the bare text. -/
theorem claim_prompt_invariant :
    (∀ (t : String) (e : Option String),
      (normalize_request t e).prompt_text =
        if (normalize_request t e).emotion_lower = "neutral" then (normalize_request t e).text
        else "(" ++ (normalize_request t e).emotion_lower ++ ") " ++ (normalize_request t e).text)
    ∧ (normalize_request "Hello" (some "happy")).prompt_text = "(happy) Hello"
    ∧ (normalize_request "Hello" (some "neutral")).prompt_text = "Hello" := by
  refine ⟨fun t e => ?_, by decide, by decide⟩
  by_cases h : resolve_emotion e = "neutral" <;> simp [normalize_request, h]

/-- C5: the emotion-to-parameter lookup is pure and total: after
case-folding, happy maps to speed 1.1, sad to 0.9, neutral to 1.0,
surprised to 1.15 and angry to 1.05, and every emotion value outside
the enumeration, including a missing or non-string value, resolves to
neutral, gets speed 1.0, and gets the neutral prompt rule (the prompt
is the cleaned text unchanged), without any error path. -/
theorem claim_emotion_table :
    emotion_speed (some "happy") = 1.1 ∧
    emotion_speed (some "sad") = 0.9 ∧
    emotion_speed (some "neutral") = 1.0 ∧
    emotion_speed (some "surprised") = 1.15 ∧
    emotion_speed (some "angry") = 1.05 ∧
    emotion_speed (some "HaPPy") = 1.1 ∧
    (∀ e : Option String, (∀ s, e = some s → valid_emotions.contains (pyLower s) = false) →
      resolve_emotion e = "neutral" ∧ emotion_speed e = 1.0 ∧
      ∀ t, (normalize_request t e).prompt_text = (normalize_request t e).text) := by
  refine ⟨rfl, rfl, rfl, rfl, rfl, rfl, fun e he => ?_⟩
  have hres : resolve_emotion e = "neutral" := by
    match e with
    | none => rfl
    | some s =>
      by_cases hs : s = ""
      · subst hs; rfl
      · simp only [resolve_emotion, emotion_lower_of, coerce_emotion, if_neg hs]
        rw [he s rfl]
        rfl
  refine ⟨hres, ?_, fun t => ?_⟩
  · rw [emotion_speed, hres]; rfl
  · simp [normalize_request, hres]

/-- C5 witness: an emotion outside the enumeration resolves to neutral
with speed 1.0 and an untagged prompt. -/
theorem claim_emotion_table_witness :
    resolve_emotion (some "excited") = "neutral" ∧
    emotion_speed (some "excited") = 1.0 ∧
    (normalize_request "Hi" (some "excited")).prompt_text =
      (normalize_request "Hi" (some "excited")).text := by
  have h := claim_emotion_table.2.2.2.2.2.2 (some "excited")
    (by intro s hs; cases hs; decide)
  exact ⟨h.1, h.2.1, h.2.2 "Hi"⟩

/-- C3 counterexample: with requested emotion excited (outside the
enumeration) the resolved emotion is neutral and the text begins,
case-insensitively, with the parenthesized tag of that resolved
emotion, yet the prefix is not stripped: the cleaned text and the
rebuilt prompt still carry it. The stripping in the code compares
against the case-folded requested emotion before the coercion of
unknown values to neutral, not against the resolved emotion. -/
theorem claim_tag_idempotent_cex :
    resolve_emotion (some "excited") = "neutral" ∧
    py_startswith (pyLower (pyStrip "(neutral) Hello"))
      ("(" ++ resolve_emotion (some "excited") ++ ")") = true ∧
    (normalize_request "(neutral) Hello" (some "excited")).prompt_text = "(neutral) Hello" ∧
    (normalize_request "(neutral) Hello" (some "excited")).text ≠ "Hello" := by
  decide

/-- C3 amended: the tag check uses the case-folded requested emotion,
before unknown values are coerced to neutral: for every request whose
trimmed text, case-insensitively, begins with the literal parenthesized
tag of the case-folded requested emotion, that prefix is stripped
before the prompt is rebuilt; in particular sending the text already
tagged as happy with emotion happy yields the same singly tagged
prompt, with no double tag. -/
theorem claim_tag_idempotent_amended (t : String) (e : Option String)
    (h : py_startswith (pyLower (pyStrip t)) ("(" ++ emotion_lower_of e ++ ")") = true) :
    (normalize_request t e).text =
      pyStrip (py_drop (pyStrip t) (py_len ("(" ++ emotion_lower_of e ++ ")"))) ∧
    (normalize_request "(happy) Hello" (some "happy")).prompt_text = "(happy) Hello" := by
  constructor
  · simp [normalize_request, h]
  · decide

/-- C3 amended witness: the pre-tagged happy text has its tag stripped
and the prompt rebuilt without a double tag. -/
theorem claim_tag_idempotent_witness :
    (normalize_request "(happy) Hello" (some "happy")).text =
      pyStrip (py_drop (pyStrip "(happy) Hello")
        (py_len ("(" ++ emotion_lower_of (some "happy") ++ ")"))) ∧
    (normalize_request "(happy) Hello" (some "happy")).prompt_text = "(happy) Hello" :=
  claim_tag_idempotent_amended "(happy) Hello" (some "happy") (by decide)

/-- When every provider call raises an APIError, the retry loop makes
exactly three calls, sleeps 1 then 2 time units between attempts, and
exits re-raising the error of the third attempt. -/
lemma tts_loop_all_apiError (msgs : Nat → String) :
    tts_loop (fun i => ConvertResult.apiError (msgs i)) 0 3 =
      (ConvertResult.apiError (msgs 2), 3, [1, 2]) := rfl

/-- A non-APIError exception exits the retry loop at once. -/
lemma tts_loop_exn_step (call : Nat → ConvertResult) (m : String) (attempt fuel : Nat)
    (h : call attempt = ConvertResult.exn m) :
    tts_loop call attempt (fuel + 1) = (ConvertResult.exn m, 1, []) := by
  simp only [tts_loop, h]

/-- C7: a request whose text is missing or non-string, empty, or only
whitespace after trimming is rejected with status 400 before any
provider call is made, whatever the emotion, user, storage, default
voice, client state and provider behavior are. -/
theorem claim_empty_text_400 (text e uid : Option String)
    (storage : List (String × String)) (dflt : Option String) (client_ok : Bool)
    (provider : ConvertParams → Nat → ConvertResult)
    (h : text = none ∨ ∃ s, text = some s ∧ pyStrip s = "") :
    generate_speech text e uid storage dflt client_ok provider =
      ⟨.error (400, "Text cannot be empty and must be a string"), 0, [], none⟩ := by
  rcases h with h | ⟨s, rfl, hs⟩
  · subst h; rfl
  · simp [generate_speech, hs]

/-- C7 witness: a whitespace-only text is rejected with 400 and zero
provider calls. -/
theorem claim_empty_text_400_witness :
    generate_speech (some "  \t ") (some "happy") (some "u1") [] none true
      (fun _ _ => ConvertResult.ok "A") =
      ⟨.error (400, "Text cannot be empty and must be a string"), 0, [], none⟩ :=
  claim_empty_text_400 (some "  \t ") (some "happy") (some "u1") [] none true
    (fun _ _ => ConvertResult.ok "A") (Or.inr ⟨"  \t ", rfl, by decide⟩)

/-- C6: voice resolution in generate_speech: a nonempty stored voice
identifier is the one sent to the provider even when a process-wide
default exists; with no stored voice the nonempty process default is
sent; with neither, the provider call carries no voice identifier. -/
theorem claim_voice_precedence (t : String) (e : Option String) (uid : String)
    (storage : List (String × String)) (dflt : Option String)
    (provider : ConvertParams → Nat → ConvertResult)
    (hv : pyStrip t ≠ "") (hu : uid ≠ "") :
    (∀ v, get_user_voice_id storage uid = some v → v ≠ "" →
      ∃ p, (generate_speech (some t) e (some uid) storage dflt true provider).sent_params
        = some p ∧ p.reference_id = some v) ∧
    (get_user_voice_id storage uid = none → ∀ d, dflt = some d → d ≠ "" →
      ∃ p, (generate_speech (some t) e (some uid) storage dflt true provider).sent_params
        = some p ∧ p.reference_id = some d) ∧
    (get_user_voice_id storage uid = none → dflt = none →
      ∃ p, (generate_speech (some t) e (some uid) storage dflt true provider).sent_params
        = some p ∧ p.reference_id = none) := by
  have hsp := generate_speech_sent_params t e (some uid) storage dflt provider hv
  have huid : py_user_id (some uid) = uid := by simp [py_user_id, hu]
  rw [huid] at hsp
  refine ⟨fun v hstore hv2 => ⟨_, hsp, ?_⟩,
          fun hnone d hd hd2 => ⟨_, hsp, ?_⟩,
          fun hnone hdn => ⟨_, hsp, ?_⟩⟩
  · simp [resolve_voice_id, hstore, py_truthy, hv2]
  · subst hd
    simp [resolve_voice_id, hnone, py_truthy, hd2]
  · subst hdn
    simp [resolve_voice_id, hnone, py_truthy]

/-- C6 witness: the three resolution cases at concrete inputs. -/
theorem claim_voice_precedence_witness :
    (∃ p, (generate_speech (some "Hello") (some "happy") (some "u1") [("u1", "CLONED")]
      (some "DEFAULT") true (fun _ _ => ConvertResult.ok "A")).sent_params
        = some p ∧ p.reference_id = some "CLONED") ∧
    (∃ p, (generate_speech (some "Hello") (some "happy") (some "u1") []
      (some "DEFAULT") true (fun _ _ => ConvertResult.ok "A")).sent_params
        = some p ∧ p.reference_id = some "DEFAULT") ∧
    (∃ p, (generate_speech (some "Hello") (some "happy") (some "u1") []
      none true (fun _ _ => ConvertResult.ok "A")).sent_params
        = some p ∧ p.reference_id = none) :=
  ⟨(claim_voice_precedence "Hello" (some "happy") "u1" [("u1", "CLONED")] (some "DEFAULT")
      (fun _ _ => ConvertResult.ok "A") (by decide) (by decide)).1 "CLONED" (by decide) (by decide),
   (claim_voice_precedence "Hello" (some "happy") "u1" [] (some "DEFAULT")
      (fun _ _ => ConvertResult.ok "A") (by decide) (by decide)).2.1 (by decide) "DEFAULT" rfl
      (by decide),
   (claim_voice_precedence "Hello" (some "happy") "u1" [] none
      (fun _ _ => ConvertResult.ok "A") (by decide) (by decide)).2.2 (by decide) rfl⟩

/-- C1: when every call to the synthesis operation raises a transient
provider APIError (a message outside the auth and billing class), the
call is attempted exactly 3 times, the sleeps between successive
attempts are 1 then 2 time units, and the error of the last attempt is
propagated with status 500. -/
theorem claim_retry_bound_transient (t : String) (e uid0 : Option String)
    (storage : List (String × String)) (dflt : Option String) (msgs : Nat → String)
    (hv : pyStrip t ≠ "")
    (h402 : strContains (msgs 2) "402" = false)
    (hkey : strContains (msgs 2) "Invalid api key" = false)
    (hbal : strContains (msgs 2) "insufficient balance" = false) :
    (generate_speech (some t) e uid0 storage dflt true
      (fun _ i => ConvertResult.apiError (msgs i))).providerCalls = 3 ∧
    (generate_speech (some t) e uid0 storage dflt true
      (fun _ i => ConvertResult.apiError (msgs i))).waits = [1, 2] ∧
    (generate_speech (some t) e uid0 storage dflt true
      (fun _ i => ConvertResult.apiError (msgs i))).result =
      .error (500, "Fish Audio API Error: " ++ msgs 2) := by
  have hl : tts_loop (fun i => ConvertResult.apiError (msgs i)) 0 max_retries =
      (ConvertResult.apiError (msgs 2), 3, [1, 2]) := rfl
  simp [generate_speech, if_neg (text_valid_of_strip_ne hv), hl, h402, hkey, hbal]

/-- C1 witness: a provider that always reports a transient failure is
called three times with backoff 1 then 2 and the request fails 500. -/
theorem claim_retry_bound_transient_witness :
    (generate_speech (some "Hello") (some "happy") (some "u1") [] none true
      (fun _ _ => ConvertResult.apiError "Service temporarily unavailable")).providerCalls = 3 ∧
    (generate_speech (some "Hello") (some "happy") (some "u1") [] none true
      (fun _ _ => ConvertResult.apiError "Service temporarily unavailable")).waits = [1, 2] ∧
    (generate_speech (some "Hello") (some "happy") (some "u1") [] none true
      (fun _ _ => ConvertResult.apiError "Service temporarily unavailable")).result =
      .error (500, "Fish Audio API Error: " ++ "Service temporarily unavailable") :=
  claim_retry_bound_transient "Hello" (some "happy") (some "u1") [] none
    (fun _ => "Service temporarily unavailable") (by decide) (by decide) (by decide) (by decide)

/-- C2 counterexample: an auth and billing provider error, which the
spec classifies as non-transient, is raised as an APIError, and the
code retries every APIError: the provider is called 3 times, not once,
before the error surfaces (as 402 here). The claim that such an error
is propagated immediately with no further provider calls is false. -/
theorem claim_non_transient_cex :
    (generate_speech (some "Hello") (some "happy") (some "u1") [] none true
      (fun _ _ => ConvertResult.apiError "Status 402: insufficient balance")).providerCalls = 3 ∧
    (generate_speech (some "Hello") (some "happy") (some "u1") [] none true
      (fun _ _ => ConvertResult.apiError "Status 402: insufficient balance")).providerCalls ≠ 1 ∧
    (generate_speech (some "Hello") (some "happy") (some "u1") [] none true
      (fun _ _ => ConvertResult.apiError "Status 402: insufficient balance")).result =
      .error (402, actionable_detail) := by
  decide

/-- C2 amended: only an exception that is not a provider APIError skips
the retry loop: it is propagated immediately on the attempt where it
occurs, with no further provider calls and no backoff sleeps, surfacing
as a 500 error; every APIError, including the auth and billing class,
is retried up to the 3-attempt bound. -/
theorem claim_non_transient_amended (t : String) (e uid0 : Option String)
    (storage : List (String × String)) (dflt : Option String) (m : String)
    (provider : ConvertParams → Nat → ConvertResult)
    (hv : pyStrip t ≠ "") (hp : ∀ p, provider p 0 = ConvertResult.exn m) :
    (generate_speech (some t) e uid0 storage dflt true provider).providerCalls = 1 ∧
    (generate_speech (some t) e uid0 storage dflt true provider).waits = [] ∧
    (generate_speech (some t) e uid0 storage dflt true provider).result =
      .error (500, "Failed to generate speech: " ++ m) := by
  have hl : ∀ p : ConvertParams,
      tts_loop (provider p) 0 max_retries = (ConvertResult.exn m, 1, []) := by
    intro p
    rw [show max_retries = 2 + 1 from rfl]
    exact tts_loop_exn_step (provider p) m 0 2 (hp p)
  simp [generate_speech, if_neg (text_valid_of_strip_ne hv), hl]

/-- C2 amended witness: a non-APIError exception on the first attempt
yields one provider call, no sleeps, and a 500 error. -/
theorem claim_non_transient_witness :
    (generate_speech (some "Hello") (some "happy") (some "u1") [] none true
      (fun _ _ => ConvertResult.exn "connection reset")).providerCalls = 1 ∧
    (generate_speech (some "Hello") (some "happy") (some "u1") [] none true
      (fun _ _ => ConvertResult.exn "connection reset")).waits = [] ∧
    (generate_speech (some "Hello") (some "happy") (some "u1") [] none true
      (fun _ _ => ConvertResult.exn "connection reset")).result =
      .error (500, "Failed to generate speech: " ++ "connection reset") :=
  claim_non_transient_amended "Hello" (some "happy") (some "u1") [] none "connection reset"
    (fun _ _ => ConvertResult.exn "connection reset") (by decide) (fun _ => rfl)

/-- C9 counterexample: the provider reports an invalid API key, the
user-actionable message is produced, but the surfaced status is 500,
not 402, because the status check only looks for the substring 402 in
the error message. The claim that such errors surface as 402 is false. -/
theorem claim_auth_billing_cex :
    (generate_speech (some "Hello") (some "happy") (some "u1") [] none true
      (fun _ _ => ConvertResult.apiError "Invalid api key")).result =
      .error (500, actionable_detail) ∧
    (generate_speech (some "Hello") (some "happy") (some "u1") [] none true
      (fun _ _ => ConvertResult.apiError "Invalid api key")).result ≠
      .error (402, actionable_detail) := by
  decide

/-- C9 amended: an APIError is surfaced with status 402 exactly when
its message contains the substring 402, in which case the
user-actionable message is returned; an invalid-key or
insufficient-balance report whose message lacks that substring is
surfaced with the user-actionable message but status 500. -/
theorem claim_auth_billing_amended (t : String) (e uid0 : Option String)
    (storage : List (String × String)) (dflt : Option String) (msgs : Nat → String)
    (hv : pyStrip t ≠ "") :
    (strContains (msgs 2) "402" = true →
      (generate_speech (some t) e uid0 storage dflt true
        (fun _ i => ConvertResult.apiError (msgs i))).result =
        .error (402, actionable_detail)) ∧
    (strContains (msgs 2) "402" = false →
      (strContains (msgs 2) "Invalid api key" = true ∨
       strContains (msgs 2) "insufficient balance" = true) →
      (generate_speech (some t) e uid0 storage dflt true
        (fun _ i => ConvertResult.apiError (msgs i))).result =
        .error (500, actionable_detail)) := by
  have hl : tts_loop (fun i => ConvertResult.apiError (msgs i)) 0 max_retries =
      (ConvertResult.apiError (msgs 2), 3, [1, 2]) := rfl
  constructor
  · intro h402
    simp [generate_speech, if_neg (text_valid_of_strip_ne hv), hl, h402]
  · intro h402 hab
    rcases hab with h | h <;>
      simp [generate_speech, if_neg (text_valid_of_strip_ne hv), hl, h402, h]

/-- C9 amended witness: a message carrying 402 surfaces as 402 with the
actionable detail; an insufficient-balance message without 402 surfaces
as 500 with the actionable detail. -/
theorem claim_auth_billing_witness :
    (generate_speech (some "Hello") (some "happy") (some "u1") [] none true
      (fun _ _ => ConvertResult.apiError "HTTP 402 Payment Required")).result =
      .error (402, actionable_detail) ∧
    (generate_speech (some "Hello") (some "happy") (some "u1") [] none true
      (fun _ _ => ConvertResult.apiError "insufficient balance")).result =
      .error (500, actionable_detail) :=
  ⟨(claim_auth_billing_amended "Hello" (some "happy") (some "u1") [] none
      (fun _ => "HTTP 402 Payment Required") (by decide)).1 (by decide),
   (claim_auth_billing_amended "Hello" (some "happy") (some "u1") [] none
      (fun _ => "insufficient balance") (by decide)).2 (by decide) (Or.inr (by decide))⟩

/-- C8: an enrollment upload whose byte length lies outside the
interval from 1000 to 10 times 1024 times 1024 fails with a 400 error
and zero provider calls, and any length inside the interval passes the
size check and reaches the provider. -/
theorem claim_audio_size_gate (len : Nat) (provider : Nat → EnrollResp) :
    ((len < 1000 ∨ len > MAX_AUDIO_BYTES) →
      ∃ d, create_voice true len provider = ⟨.error (400, d), 0⟩) ∧
    (1000 ≤ len → len ≤ MAX_AUDIO_BYTES →
      1 ≤ (create_voice true len provider).providerCalls) := by
  constructor
  · rintro (h | h)
    · have h2 : ¬ len > MAX_AUDIO_BYTES := by
        simp only [MAX_AUDIO_BYTES]
        omega
      exact ⟨"Audio file too small", by simp [create_voice, h2, h]⟩
    · exact ⟨"Audio file too large (max 10MB)", by simp [create_voice, h]⟩
  · intro h1 h2
    have hbig : ¬ len > MAX_AUDIO_BYTES := by omega
    have hsmall : ¬ len < 1000 := by omega
    simp only [create_voice, if_neg hbig, if_neg hsmall]
    simp only [Bool.true_eq_false, if_false]
    split
    · split <;> simp
    · split
      · split <;> simp
      · simp

/-- C8 witness: a 500-byte payload and an 11MB payload fail with 400
and zero provider calls; a 5000-byte payload reaches the provider. -/
theorem claim_audio_size_gate_witness :
    (∃ d, create_voice true 500 (fun _ => ⟨201, some "V", ""⟩) = ⟨.error (400, d), 0⟩) ∧
    (∃ d, create_voice true (11 * 1024 * 1024) (fun _ => ⟨201, some "V", ""⟩) =
      ⟨.error (400, d), 0⟩) ∧
    1 ≤ (create_voice true 5000 (fun _ => ⟨201, some "V", ""⟩)).providerCalls :=
  ⟨(claim_audio_size_gate 500 (fun _ => ⟨201, some "V", ""⟩)).1 (Or.inl (by decide)),
   (claim_audio_size_gate (11 * 1024 * 1024) (fun _ => ⟨201, some "V", ""⟩)).1
     (Or.inr (by decide)),
   (claim_audio_size_gate 5000 (fun _ => ⟨201, some "V", ""⟩)).2 (by decide) (by decide)⟩

/-- C10: a stored empty-string voice identifier is treated as no stored
voice everywhere: voice resolution behaves exactly as with an empty
directory, falling back to a nonempty process default when present and
to no identifier when the default is absent, and the voice-status
endpoint reports no voice with a null identifier. -/
theorem claim_empty_voice_id (storage : List (String × String)) (uid : String)
    (dflt : Option String) (h : get_user_voice_id storage uid = some "") :
    resolve_voice_id storage uid dflt = resolve_voice_id [] uid dflt ∧
    (∀ d, dflt = some d → d ≠ "" → resolve_voice_id storage uid dflt = some d) ∧
    (dflt = none → resolve_voice_id storage uid dflt = none) ∧
    get_voice_status storage uid = ⟨false, none, "Voice Model Not Setup"⟩ := by
  refine ⟨?_, ?_, ?_, ?_⟩
  · have h2 : storage_get storage uid = some "" := h
    simp [resolve_voice_id, get_user_voice_id, storage_get, h2, py_truthy]
  · rintro d rfl hd
    simp [resolve_voice_id, h, py_truthy, hd]
  · rintro rfl
    simp [resolve_voice_id, h, py_truthy]
  · simp [get_voice_status, h, py_truthy]

/-- C10 witness: a user whose stored identifier is the empty string
falls back to the process default and is reported as having no voice. -/
theorem claim_empty_voice_id_witness :
    resolve_voice_id [("u", "")] "u" (some "DEFAULT") = some "DEFAULT" ∧
    resolve_voice_id [("u", "")] "u" none = none ∧
    get_voice_status [("u", "")] "u" = ⟨false, none, "Voice Model Not Setup"⟩ :=
  ⟨(claim_empty_voice_id [("u", "")] "u" (some "DEFAULT") (by decide)).2.1 "DEFAULT" rfl
     (by decide),
   (claim_empty_voice_id [("u", "")] "u" none (by decide)).2.2.1 rfl,
   (claim_empty_voice_id [("u", "")] "u" none (by decide)).2.2.2⟩

end TTSBackend
